import Mathlib

/-!
Verification development for the Bug-Tracker backend.

This file gives a shallow embedding of the data-access layer of the
bug-tracking backend: the AppFlyte collection-database adapter
(`backend/services/collection_db.py`), the entity codecs and repositories
(`backend/repositories/*.py`), the pydantic entity constructors
(`backend/models/bug_model.py`), the role-gated status transition of
`backend/routes/bugs.py`, and the comment-creation saga of
`backend/routes/comments.py`.

Modelling conventions:
- JSON-like wire values are the inductive `JValue`; a python dict is an
  association list `Item` (python dict keys are unique and iteration order is
  insertion order, both preserved by the list).
- Timestamps are natural numbers (UTC instants).  The python `datetime`
  library's guarantee `datetime.fromisoformat(t.isoformat()) = t` is embedded
  by letting a string that is a valid ISO-format datetime carry its parsed
  instant (`JValue.timeStr`); likewise a string holding the `json.dumps` of an
  object carries that object (`JValue.jsonStr`).  A plain `JValue.str` stands
  for any other string (neither a valid ISO datetime nor a JSON object).
- Python exceptions are the inductive `PyErr`; fallible code returns
  `Except PyErr _`.  Each remote HTTP interaction is a parameter holding the
  outcome `_make_request` would produce (`none` models a 404, `some v` a
  successful JSON body, `.error` a raised transport or status error).
-/

namespace BugTracker

/-- JSON-like wire value exchanged with the AppFlyte Collection DB.
`timeStr t` is a string that is a valid ISO-format datetime denoting instant
`t`; `jsonStr fs` is a string holding the JSON serialization of the object
`fs`; `str s` is any other string; `time t` is a python `datetime` object
(not a string) denoting instant `t`. -/
inductive JValue where
  | null
  | bool (b : Bool)
  | str (s : String)
  | timeStr (t : Nat)
  | jsonStr (fields : List (String × JValue))
  | time (t : Nat)
  | list (xs : List JValue)
  | obj (fields : List (String × JValue))
deriving Repr

/-- A python dict with string keys, as stored items and request bodies are. -/
abbrev Item := List (String × JValue)

/-- `d.get(k)`: the binding of key `k` (dict keys are unique). -/
def jlookup (fields : Item) (k : String) : Option JValue :=
  match fields with
  | [] => none
  | (k0, v) :: rest => if k0 == k then some v else jlookup rest k

/-- `k in d`. -/
def hasKey (fields : Item) (k : String) : Bool :=
  (jlookup fields k).isSome

/-- `d[k] = v`: replace the first binding of `k`, else append. -/
def setField (fields : Item) (k : String) (v : JValue) : Item :=
  match fields with
  | [] => [(k, v)]
  | (k0, v0) :: rest =>
      if k0 == k then (k0, v) :: rest else (k0, v0) :: setField rest k v

/-- `d.pop(k)`: remove every binding of `k` (there is at most one). -/
def eraseField (fields : Item) (k : String) : Item :=
  fields.filter (fun p => p.1 != k)

/-- `s.lower()` (ASCII case folding, which is all the code relies on). -/
def pyLower (s : String) : String := String.mk (s.data.map Char.toLower)

/-- Python exception classes raised by the embedded code. -/
inductive PyErr where
  /-- `ValueError(msg)` -/
  | valueError (msg : String)
  /-- `TypeError` (e.g. `len()` of an unsized object) -/
  | typeError (msg : String)
  /-- `AttributeError` (attribute lookup on an object lacking it) -/
  | attrError (msg : String)
  /-- `httpx.HTTPStatusError` re-raised for a non-404 error status -/
  | httpStatusError (status : Nat)
  /-- `httpx.RequestError` (transport failure) -/
  | requestError
deriving DecidableEq, Repr

/-- The python class name of the raised exception: what a caller can branch
on "by error type alone". -/
def PyErr.className : PyErr → String
  | .valueError _ => "ValueError"
  | .typeError _ => "TypeError"
  | .attrError _ => "AttributeError"
  | .httpStatusError _ => "HTTPStatusError"
  | .requestError => "RequestError"

/-- `fastapi.HTTPException(status_code, detail)`. -/
structure HTTPException where
  status : Nat
  detail : String
deriving DecidableEq, Repr

/-! ## Document-store adapter (`backend/services/collection_db.py`)

Each method is embedded with the outcome of its one `_make_request` call as a
parameter `remote : Except PyErr (Option JValue)`: `_make_request` returns the
parsed JSON body on success, `none` on a 404 status, and raises
(`httpStatusError` / `requestError`) otherwise.  The validation that python
performs before issuing the request is in the embedded function before the
`remote` parameter is consulted, so a validation failure is independent of the
remote outcome. -/

/-- `collection_name or 'base'` (an empty collection name is falsy). -/
def collOrBase (c : String) : String := if c = "" then "base" else c

/-- `s.strip()`: python whitespace stripping, on the character list (the code
only ever distinguishes all-whitespace from other strings). -/
def pyStrip (s : String) : String :=
  String.mk (((s.data.dropWhile Char.isWhitespace).reverse.dropWhile
    Char.isWhitespace).reverse)

/-- Whether `len()` is defined for the value (it is for lists, dicts and
strings; `len()` of None, a bool or a datetime raises `TypeError`). -/
def pyHasLen : JValue → Bool
  | .null => false
  | .bool _ => false
  | .time _ => false
  | _ => true

/-- `create_item` (collection_db.py lines 157-195).  `data = none` models the
python `None`; a present dict (even an empty one) is passed through to the
remote create call. -/
def create_item (collection_name : String) (data : Option Item)
    (remote : Except PyErr (Option JValue)) : Except PyErr JValue :=
  match data with
  | none => .error (.valueError "data cannot be None")
  | some _ =>
      match remote with
      | .error e => .error e
      | .ok none =>
          .error (.valueError ("Failed to create item: collection '" ++
            collOrBase collection_name ++ "' not found"))
      | .ok (some result) => .ok result

/-- The inner loop of `get_all_items` for the nested-by-key response shape:
a dict entry in a list value contributes its `payload` field when present and
itself otherwise; non-dict entries are skipped. -/
def unwrap_payload (item : JValue) : Option JValue :=
  match item with
  | .obj f =>
      match jlookup f "payload" with
      | some p => some p
      | none => some (.obj f)
  | _ => none

/-- The nested-structure extraction of `get_all_items`: iterating the
response dict in order, every list value contributes its entries, unwrapped;
non-list values contribute nothing. -/
def extract_nested (fields : Item) : List JValue :=
  match fields with
  | [] => []
  | kv :: rest =>
      (match kv.2 with
       | .list items => items.filterMap unwrap_payload
       | _ => []) ++ extract_nested rest

/-- `get_all_items` (collection_db.py lines 196-263): normalizes the remote
read-all response.  A 404 yields an empty list; a list response is returned
directly; a dict with an `items` key returns that value (the logging call
`len(items)` raises `TypeError` if it is unsized); any other dict is flattened
by `extract_nested`, falling back to the single-item list `[result]` when
nothing was extracted; any other response type yields an empty list. -/
def get_all_items (remote : Except PyErr (Option JValue)) :
    Except PyErr JValue :=
  match remote with
  | .error e => .error e
  | .ok none => .ok (.list [])
  | .ok (some (.list xs)) => .ok (.list xs)
  | .ok (some (.obj fields)) =>
      match jlookup fields "items" with
      | some items =>
          if pyHasLen items then .ok items
          else .error (.typeError "object of this type has no len")
      | none =>
          let all_items := extract_nested fields
          if all_items.isEmpty then .ok (.list [.obj fields])
          else .ok (.list all_items)
  | .ok (some _) => .ok (.list [])

/-- The `PUT` body built by `update_item`: the flat updates dict translated to
the store's list of path/value pairs. -/
def update_fields_body (item_id : String) (updates : Item) : Item :=
  [("id", .str item_id),
   ("fields", .list (updates.map (fun kv =>
      .obj [("path", .str ("$." ++ kv.1)), ("value", kv.2)])))]

/-- `update_item` (collection_db.py lines 302-361).  `updates = none` models
the python `None`. -/
def update_item (collection_name : String) (item_id : String)
    (updates : Option Item) (remote : Except PyErr (Option JValue)) :
    Except PyErr JValue :=
  if pyStrip item_id = "" then .error (.valueError "item_id cannot be empty")
  else match updates with
  | none => .error (.valueError "updates cannot be None or empty")
  | some u =>
      if u.isEmpty then .error (.valueError "updates cannot be None or empty")
      else match remote with
      | .error e => .error e
      | .ok none =>
          .error (.valueError ("Failed to update item: item '" ++ item_id ++
            "' not found in collection '" ++ collOrBase collection_name ++ "'"))
      | .ok (some result) => .ok result

/-- The python class of the exception carried by a failed outcome. -/
def errClass (r : Except PyErr JValue) : Option String :=
  match r with
  | .error e => some e.className
  | .ok _ => none

/-! ## Theorems for claims C5, C6 and C7 -/

/-- A nested-by-internal-key read-all response: each internal key maps to a
list of item dicts, each flagged `true` when wrapped in a `payload` envelope. -/
def wrapChoice : Item × Bool → JValue
  | (it, true) => .obj [("payload", .obj it)]
  | (it, false) => .obj it

/-- The response dict of the nested-by-internal-key shape. -/
def mkNestedResponse (kvs : List (String × List (Item × Bool))) : Item :=
  kvs.map (fun kv => (kv.1, .list (kv.2.map wrapChoice)))

/-- The items such a response contains, in response order, unwrapped. -/
def nestedItems : List (String × List (Item × Bool)) → List JValue
  | [] => []
  | kv :: rest => kv.2.map (fun p => JValue.obj p.1) ++ nestedItems rest

theorem filterMap_unwrap_wrapChoice (l : List (Item × Bool))
    (h : ∀ p ∈ l, p.2 = false → jlookup p.1 "payload" = none) :
    (l.map wrapChoice).filterMap unwrap_payload =
      l.map (fun p => JValue.obj p.1) := by
  induction l with
  | nil => rfl
  | cons a l ih =>
    have htail : ∀ p ∈ l, p.2 = false → jlookup p.1 "payload" = none :=
      fun p hp => h p (List.mem_cons_of_mem a hp)
    obtain ⟨it, b⟩ := a
    cases b with
    | true =>
        simpa [List.filterMap_cons, wrapChoice, unwrap_payload, jlookup]
          using ih htail
    | false =>
        have hpl : jlookup it "payload" = none :=
          h (it, false) (List.mem_cons_self _ _) rfl
        simpa [List.filterMap_cons, wrapChoice, unwrap_payload, hpl]
          using ih htail

theorem jlookup_mkNestedResponse_items (kvs : List (String × List (Item × Bool)))
    (h : ∀ kv ∈ kvs, kv.1 ≠ "items") :
    jlookup (mkNestedResponse kvs) "items" = none := by
  induction kvs with
  | nil => rfl
  | cons a kvs ih =>
    have ha : a.1 ≠ "items" := h a (List.mem_cons_self _ _)
    have htail : ∀ kv ∈ kvs, kv.1 ≠ "items" :=
      fun kv hkv => h kv (List.mem_cons_of_mem a hkv)
    simp [mkNestedResponse, jlookup, ha] at *
    exact ih htail

theorem extract_nested_mkNestedResponse (kvs : List (String × List (Item × Bool)))
    (h : ∀ kv ∈ kvs, ∀ p ∈ kv.2, p.2 = false → jlookup p.1 "payload" = none) :
    extract_nested (mkNestedResponse kvs) = nestedItems kvs := by
  induction kvs with
  | nil => rfl
  | cons a kvs ih =>
    have hhead : ∀ p ∈ a.2, p.2 = false → jlookup p.1 "payload" = none :=
      h a (List.mem_cons_self _ _)
    have htail : ∀ kv ∈ kvs, ∀ p ∈ kv.2, p.2 = false →
        jlookup p.1 "payload" = none :=
      fun kv hkv => h kv (List.mem_cons_of_mem a hkv)
    show (a.2.map wrapChoice).filterMap unwrap_payload ++
        extract_nested (mkNestedResponse kvs) =
      a.2.map (fun p => JValue.obj p.1) ++ nestedItems kvs
    rw [filterMap_unwrap_wrapChoice a.2 hhead, ih htail]

/-- C5 (counterexample): a nested-by-internal-key response whose list values
hold no items — `{"cdid": []}` — contains zero items, yet `get_all_items`
returns the whole response dict as a one-element list instead of the empty
sequence the claim requires. -/
theorem C5_counterexample :
    get_all_items (.ok (some (.obj [("cdid", .list [])]))) =
      .ok (.list [.obj [("cdid", .list [])]]) ∧
    get_all_items (.ok (some (.obj [("cdid", .list [])]))) ≠
      .ok (.list []) := by
  refine ⟨rfl, ?_⟩
  intro h
  rw [show get_all_items (.ok (some (.obj [("cdid", .list [])]))) =
        .ok (.list [.obj [("cdid", .list [])]]) from rfl] at h
  simp at h

/-- C5 (amended): an absent collection (404) yields an empty list; a flat
list response is returned as is; a wrapper dict whose `items` field holds a
list returns exactly that list; and a nested-by-internal-key response whose
values are lists of item dicts, each optionally wrapped in a `payload`
envelope, is flattened to exactly its items in response order — provided the
response contains at least one item (a nested response with no extractable
item falls back to the one-element list holding the whole response dict). -/
theorem C5_get_all_items :
    (get_all_items (.ok none) = .ok (.list [])) ∧
    (∀ xs, get_all_items (.ok (some (.list xs))) = .ok (.list xs)) ∧
    (∀ fields xs, jlookup fields "items" = some (.list xs) →
        get_all_items (.ok (some (.obj fields))) = .ok (.list xs)) ∧
    (∀ kvs, (∀ kv ∈ kvs, kv.1 ≠ "items") →
        (∀ kv ∈ kvs, ∀ p ∈ kv.2, p.2 = false → jlookup p.1 "payload" = none) →
        nestedItems kvs ≠ [] →
        get_all_items (.ok (some (.obj (mkNestedResponse kvs)))) =
          .ok (.list (nestedItems kvs))) := by
  refine ⟨rfl, fun xs => rfl, ?_, ?_⟩
  · intro fields xs h
    rw [get_all_items, h]
    rfl
  · intro kvs hkeys hpl hne
    rw [get_all_items, jlookup_mkNestedResponse_items kvs hkeys]
    simp only [extract_nested_mkNestedResponse kvs hpl]
    rw [if_neg (by simpa [List.isEmpty_iff] using hne)]

/-- C5 (witness): the wrapper shape and a two-key nested shape (one payload
envelope, one bare item) at concrete values. -/
theorem C5_get_all_items_witness :
    (jlookup [("items", .list [.obj [("a", .null)]])] "items" =
        some (.list [.obj [("a", .null)]]) ∧
      get_all_items (.ok (some (.obj [("items", .list [.obj [("a", .null)]])]))) =
        .ok (.list [.obj [("a", .null)]])) ∧
    (get_all_items (.ok (some (.obj (mkNestedResponse
        [("k1", [([("a", .null)], true)]), ("k2", [([("b", .null)], false)])])))) =
      .ok (.list (nestedItems
        [("k1", [([("a", .null)], true)]), ("k2", [([("b", .null)], false)])]))) :=
  ⟨⟨rfl, C5_get_all_items.2.2.1 _ _ rfl⟩,
    C5_get_all_items.2.2.2 _
      (by intro kv hkv; fin_cases hkv <;> simp)
      (by intro kv hkv; fin_cases hkv <;> intro p hp <;> fin_cases hp <;> simp [jlookup])
      (by simp [nestedItems])⟩

/-- C6 (counterexample): updating a nonexistent item raises `ValueError`
(with a not-found message), the same python exception class as the
empty-arguments validation failure, so callers cannot distinguish the
not-found outcome from the validation outcome by error type alone. -/
theorem C6_counterexample :
    update_item "" "bug-7" (some [("updatedAt", .timeStr 5)]) (.ok none) =
      .error (.valueError
        "Failed to update item: item 'bug-7' not found in collection 'base'") ∧
    errClass (update_item "" "bug-7" (some [("updatedAt", .timeStr 5)]) (.ok none)) =
      some "ValueError" ∧
    errClass (update_item "" "" (some [("updatedAt", .timeStr 5)]) (.ok (some .null))) =
      some "ValueError" :=
  ⟨rfl, rfl, rfl⟩

/-- C6 (amended): an empty (or whitespace) id, or empty/None updates, fails
with `ValueError` independently of the remote outcome (the remote call is
never consulted); a nonexistent target item (404) also fails with
`ValueError`, carrying a not-found message — the same exception class, so the
two outcomes are distinguishable only by message, not by type. -/
theorem C6_update_item :
    (∀ (coll : String) (updates : Option Item) (remote : Except PyErr (Option JValue)),
        update_item coll "" updates remote =
          .error (.valueError "item_id cannot be empty")) ∧
    (∀ (coll id : String) (remote : Except PyErr (Option JValue)),
        pyStrip id ≠ "" →
        update_item coll id (some []) remote =
          .error (.valueError "updates cannot be None or empty")) ∧
    (∀ (coll id : String) (u : Item),
        pyStrip id ≠ "" → u ≠ [] →
        update_item coll id (some u) (.ok none) =
          .error (.valueError ("Failed to update item: item '" ++ id ++
            "' not found in collection '" ++ collOrBase coll ++ "'"))) := by
  refine ⟨fun coll updates remote => rfl, ?_, ?_⟩
  · intro coll id remote hid
    rw [update_item.eq_def, if_neg hid]
    rfl
  · intro coll id u hid hu
    rw [update_item.eq_def, if_neg hid]
    cases u with
    | nil => exact absurd rfl hu
    | cons a l => rfl

/-- C6 (witness): concrete instances of the three failure clauses. -/
theorem C6_update_item_witness :
    (update_item "bugs" "" (some [("a", .null)]) (.ok (some .null)) =
      .error (.valueError "item_id cannot be empty")) ∧
    (pyStrip "b1" ≠ "" ∧
      update_item "bugs" "b1" (some []) (.ok (some .null)) =
        .error (.valueError "updates cannot be None or empty")) ∧
    (pyStrip "b1" ≠ "" ∧ ([("a", JValue.null)] : Item) ≠ [] ∧
      update_item "bugs" "b1" (some [("a", .null)]) (.ok none) =
        .error (.valueError
          "Failed to update item: item 'b1' not found in collection 'bugs'")) :=
  ⟨C6_update_item.1 "bugs" (some [("a", .null)]) (.ok (some .null)),
    ⟨by decide, C6_update_item.2.1 "bugs" "b1" (.ok (some .null)) (by decide)⟩,
    ⟨by decide, by simp,
      C6_update_item.2.2 "bugs" "b1" [("a", .null)] (by decide) (by simp)⟩⟩

/-- C7 (counterexample): an empty (but not None) fields dict is not rejected:
the create call is issued and the remote's response is returned, so the
claimed `ValidationError` before any remote call does not occur. -/
theorem C7_counterexample :
    create_item "bugs" (some []) (.ok (some (.obj [("__auto_id__", .str "78")]))) =
      .ok (.obj [("__auto_id__", .str "78")]) ∧
    errClass (create_item "bugs" (some [])
      (.ok (some (.obj [("__auto_id__", .str "78")])))) = none :=
  ⟨rfl, rfl⟩

/-- C7 (amended): `create_item` fails with `ValueError` only when the fields
dict is None (undefined), independently of the remote outcome; any present
dict — empty included — issues the create call and the remote's successful
response (the created item carrying its assigned `__auto_id__`) is returned;
remote failures propagate. -/
theorem C7_create_item :
    (∀ (coll : String) (remote : Except PyErr (Option JValue)),
        create_item coll none remote =
          .error (.valueError "data cannot be None")) ∧
    (∀ (coll : String) (data : Item) (result : JValue),
        create_item coll (some data) (.ok (some result)) = .ok result) ∧
    (∀ (coll : String) (data : Item) (e : PyErr),
        create_item coll (some data) (.error e) = .error e) :=
  ⟨fun _ _ => rfl, fun _ _ _ => rfl, fun _ _ _ => rfl⟩

/-! ## Status transition gate (`backend/routes/bugs.py`, `update_bug_status`)

The role-based validation block of `update_bug_status` (lines 283-309) is a
pure decision on `(current status, requested status, user role, validated
flag)`.  `currentStatus` is the raw string read from the stored bug document
(`bug_doc.get("status")`); the requested status was already parsed into the
`BugStatus` enumeration by the request model; `validated` is
`bug_doc.get("validated", False)`. -/

/-- `BugStatus` enumeration of `backend/models/bug_model.py`. -/
inductive BugStatus where
  | Open
  | InProgress
  | Resolved
  | Closed
deriving DecidableEq, Repr

/-- `.value` of the `BugStatus` member. -/
def BugStatus.value : BugStatus → String
  | .Open => "Open"
  | .InProgress => "In Progress"
  | .Resolved => "Resolved"
  | .Closed => "Closed"

/-- The role-based validation of `update_bug_status`: `.ok ()` means the
request passes the gate and the status update proceeds; `.error e` is the
`HTTPException` raised. -/
def update_bug_status_gate (currentStatus : String) (newStatus : BugStatus)
    (userRole : String) (validated : Bool) : Except HTTPException Unit :=
  let role := pyLower userRole
  if currentStatus = BugStatus.Closed.value ∧ role ≠ "admin" then
    .error ⟨403, "Only Admin can modify closed bugs"⟩
  else if newStatus = BugStatus.Closed then
    if role ≠ "tester" ∧ role ≠ "admin" then
      .error ⟨403, "Only Testers can close bugs"⟩
    else if !validated then
      .error ⟨400, "Bug must be validated before closing"⟩
    else
      .ok ()
  else
    .ok ()

/-! ## Theorems for claims C2 and C3 -/

/-- C2 (counterexample): with the bug currently Closed, a tester requesting a
transition to Closed on an unvalidated bug is denied by the closed-bug gate
with the generic authorization message, not the distinct precondition reason
"Bug must be validated before closing" that the claim promises whenever the
role is acceptable (admin or tester) and `validated` is false. -/
theorem C2_counterexample :
    update_bug_status_gate "Closed" BugStatus.Closed "tester" false =
      .error ⟨403, "Only Admin can modify closed bugs"⟩ ∧
    update_bug_status_gate "Closed" BugStatus.Closed "tester" false ≠
      .error ⟨400, "Bug must be validated before closing"⟩ := by
  constructor
  · rfl
  · intro h
    rw [show update_bug_status_gate "Closed" BugStatus.Closed "tester" false =
          .error ⟨403, "Only Admin can modify closed bugs"⟩ from rfl] at h
    simp at h

/-- C2 (amended): a transition into Closed succeeds only if the acting role
(lower-cased) is "tester" or "admin" and the bug's validated flag is true;
and whenever the role is acceptable, validated is false, and the closed-bug
gate does not fire first (the current status is not "Closed", or the role is
"admin"), the denial is the distinct 400 precondition error
"Bug must be validated before closing". -/
theorem C2_close_transition :
    (∀ (cur : String) (role : String) (validated : Bool),
        update_bug_status_gate cur BugStatus.Closed role validated = .ok () →
        (pyLower role = "tester" ∨ pyLower role = "admin") ∧ validated = true) ∧
    (∀ (cur : String) (role : String),
        (pyLower role = "tester" ∨ pyLower role = "admin") →
        (cur ≠ "Closed" ∨ pyLower role = "admin") →
        update_bug_status_gate cur BugStatus.Closed role false =
          .error ⟨400, "Bug must be validated before closing"⟩) := by
  constructor
  · intro cur role validated h
    rw [update_bug_status_gate] at h
    split at h
    · exact absurd h (by simp)
    · split at h
      · split at h
        · exact absurd h (by simp)
        · split at h
          · exact absurd h (by simp)
          · rename_i hrole hval
            constructor
            · rcases not_and_or.mp hrole with h1 | h2
              · exact Or.inl (not_not.mp h1)
              · exact Or.inr (not_not.mp h2)
            · simpa using hval
      · simp at *
  · intro cur role hrole hgate
    rw [update_bug_status_gate]
    have hfirst : ¬(cur = BugStatus.Closed.value ∧ pyLower role ≠ "admin") := by
      rcases hgate with hc | ha
      · intro hand
        exact hc (by simpa [BugStatus.value] using hand.1)
      · intro hand
        exact hand.2 ha
    rw [if_neg hfirst, if_pos rfl]
    have hsecond : ¬(pyLower role ≠ "tester" ∧ pyLower role ≠ "admin") := by
      rcases hrole with ht | ha
      · intro hand; exact hand.1 ht
      · intro hand; exact hand.2 ha
    rw [if_neg hsecond]
    rfl

/-- C2 (witness): at current status Open, role "Tester", validated false, the
amended theorem yields the distinct precondition denial. -/
theorem C2_close_transition_witness :
    (pyLower "Tester" = "tester" ∨ pyLower "Tester" = "admin") ∧
    ("Open" ≠ "Closed" ∨ pyLower "Tester" = "admin") ∧
    update_bug_status_gate "Open" BugStatus.Closed "Tester" false =
      .error ⟨400, "Bug must be validated before closing"⟩ :=
  ⟨Or.inl (by decide), Or.inl (by decide),
    C2_close_transition.2 "Open" "Tester" (Or.inl (by decide)) (Or.inl (by decide))⟩

/-- C3: when the bug's current status is "Closed", every request from a role
other than admin is denied with the 403 insufficient-role error regardless of
the requested target status; for the admin role the closed-state gate never
produces that denial. -/
theorem C3_closed_state_gate :
    (∀ (target : BugStatus) (role : String) (validated : Bool),
        pyLower role ≠ "admin" →
        update_bug_status_gate "Closed" target role validated =
          .error ⟨403, "Only Admin can modify closed bugs"⟩) ∧
    (∀ (target : BugStatus) (role : String) (validated : Bool),
        pyLower role = "admin" →
        update_bug_status_gate "Closed" target role validated ≠
          .error ⟨403, "Only Admin can modify closed bugs"⟩) := by
  constructor
  · intro target role validated h
    rw [update_bug_status_gate]
    rw [if_pos ⟨rfl, h⟩]
  · intro target role validated h
    rw [update_bug_status_gate]
    rw [if_neg (by intro hand; exact hand.2 h)]
    split
    · rw [if_neg (by intro hand; exact hand.2 h)]
      split
      · simp
      · simp
    · simp

/-- C3 (witness): a developer cannot touch a closed bug, while the closed-state
gate does not deny the admin. -/
theorem C3_closed_state_gate_witness :
    (pyLower "Developer" ≠ "admin" ∧
      update_bug_status_gate "Closed" BugStatus.Open "Developer" true =
        .error ⟨403, "Only Admin can modify closed bugs"⟩) ∧
    (pyLower "Admin" = "admin" ∧
      update_bug_status_gate "Closed" BugStatus.Open "Admin" true ≠
        .error ⟨403, "Only Admin can modify closed bugs"⟩) :=
  ⟨⟨by decide, C3_closed_state_gate.1 BugStatus.Open "Developer" true (by decide)⟩,
    ⟨by decide, C3_closed_state_gate.2 BugStatus.Open "Admin" true (by decide)⟩⟩

/-! ## Domain entities (`backend/models/bug_model.py`)

Pydantic model construction `Model(**item)` is embedded as a function from
the keyword dict to `Except PyErr entity`: required fields must be present
with the right runtime type and satisfy their declared length bounds; extra
keys are ignored (pydantic's default); a `datetime` field accepts a datetime
object or an ISO-format string; a field with a `default_factory` of the
current UTC time takes `now` when absent (field validators do not run on
defaults). -/

/-- A required `str` pydantic field. -/
def pyStrField (v : Option JValue) : Except PyErr String :=
  match v with
  | some (.str s) => .ok s
  | some _ => .error (.valueError "Input should be a valid string")
  | none => .error (.valueError "Field required")

/-- A required `str` field with `min_length=1`. -/
def pyStrMin1 (v : Option JValue) : Except PyErr String :=
  match pyStrField v with
  | .error e => .error e
  | .ok s =>
      if s.length < 1 then
        .error (.valueError "String should have at least 1 character")
      else .ok s

/-- A required `str` field with `min_length=1, max_length=200`. -/
def pyStrMin1Max200 (v : Option JValue) : Except PyErr String :=
  match pyStrField v with
  | .error e => .error e
  | .ok s =>
      if s.length < 1 then
        .error (.valueError "String should have at least 1 character")
      else if 200 < s.length then
        .error (.valueError "String should have at most 200 characters")
      else .ok s

/-- An `Optional[str]` field defaulting to None. -/
def pyOptStrField (v : Option JValue) : Except PyErr (Option String) :=
  match v with
  | none => .ok none
  | some .null => .ok none
  | some (.str s) => .ok (some s)
  | some _ => .error (.valueError "Input should be a valid string")

/-- A `datetime` value (pydantic accepts a datetime object or an ISO string). -/
def pyDatetimeVal (v : JValue) : Except PyErr Nat :=
  match v with
  | .time t => .ok t
  | .timeStr t => .ok t
  | _ => .error (.valueError "Input should be a valid datetime")

/-- A `datetime` field whose `default_factory` is the current time `now`. -/
def pyDatetimeFieldD (now : Nat) (v : Option JValue) : Except PyErr Nat :=
  match v with
  | none => .ok now
  | some w => pyDatetimeVal w

/-- A `bool` field with a literal default. -/
def pyBoolFieldD (dflt : Bool) (v : Option JValue) : Except PyErr Bool :=
  match v with
  | none => .ok dflt
  | some (.bool b) => .ok b
  | some _ => .error (.valueError "Input should be a valid boolean")

/-- The element check of a `List[str]` field. -/
def pyStrElems (xs : List JValue) : Except PyErr (List String) :=
  match xs with
  | [] => .ok []
  | x :: rest =>
      match x with
      | .str s =>
          match pyStrElems rest with
          | .error e => .error e
          | .ok ss => .ok (s :: ss)
      | _ => .error (.valueError "Input should be a valid string")

/-- A `List[str]` field with `default_factory=list`. -/
def pyStrListFieldD (v : Option JValue) : Except PyErr (List String) :=
  match v with
  | none => .ok []
  | some (.list xs) => pyStrElems xs
  | some _ => .error (.valueError "Input should be a valid list")

/-- `BugPriority` enumeration. -/
inductive BugPriority where
  | Low
  | Medium
  | High
  | Critical
deriving DecidableEq, Repr

/-- `.value` of the `BugPriority` member. -/
def BugPriority.value : BugPriority → String
  | .Low => "Low"
  | .Medium => "Medium"
  | .High => "High"
  | .Critical => "Critical"

/-- `BugSeverity` enumeration. -/
inductive BugSeverity where
  | Minor
  | Major
  | Blocker
deriving DecidableEq, Repr

/-- `.value` of the `BugSeverity` member. -/
def BugSeverity.value : BugSeverity → String
  | .Minor => "Minor"
  | .Major => "Major"
  | .Blocker => "Blocker"

/-- `validate_enum_field` for `BugStatus`: a string is looked up among the
member values, anything else is rejected. -/
def parseBugStatus (s : String) : Except PyErr BugStatus :=
  if s = "Open" then .ok .Open
  else if s = "In Progress" then .ok .InProgress
  else if s = "Resolved" then .ok .Resolved
  else if s = "Closed" then .ok .Closed
  else .error (.valueError
    "Invalid status. Must be one of: Open, In Progress, Resolved, Closed")

/-- `validate_enum_field` for `BugPriority`. -/
def parseBugPriority (s : String) : Except PyErr BugPriority :=
  if s = "Low" then .ok .Low
  else if s = "Medium" then .ok .Medium
  else if s = "High" then .ok .High
  else if s = "Critical" then .ok .Critical
  else .error (.valueError
    "Invalid priority. Must be one of: Low, Medium, High, Critical")

/-- `validate_enum_field` for `BugSeverity`. -/
def parseBugSeverity (s : String) : Except PyErr BugSeverity :=
  if s = "Minor" then .ok .Minor
  else if s = "Major" then .ok .Major
  else if s = "Blocker" then .ok .Blocker
  else .error (.valueError
    "Invalid severity. Must be one of: Minor, Major, Blocker")

/-- The `Comment` entity (bug_model.py lines 98-121). -/
structure Comment where
  id : Option String
  bugId : String
  authorId : String
  message : String
  createdAt : Nat
deriving DecidableEq, Repr

/-- `Comment(**item)`: pydantic construction with the `validate_created_at`
field validator, which rejects a `createdAt` later than the current UTC time
`now`; an absent `createdAt` defaults to `now` (validators skip defaults). -/
def mkComment (now : Nat) (item : Item) : Except PyErr Comment :=
  match pyOptStrField (jlookup item "_id") with
  | .error e => .error e
  | .ok idv =>
    match pyStrMin1 (jlookup item "bugId") with
    | .error e => .error e
    | .ok bugId =>
      match pyStrMin1 (jlookup item "authorId") with
      | .error e => .error e
      | .ok authorId =>
        match pyStrMin1 (jlookup item "message") with
        | .error e => .error e
        | .ok message =>
          match jlookup item "createdAt" with
          | none => .ok ⟨idv, bugId, authorId, message, now⟩
          | some v =>
              match pyDatetimeVal v with
              | .error e => .error e
              | .ok t =>
                  if now < t then
                    .error (.valueError "createdAt cannot be in the future")
                  else .ok ⟨idv, bugId, authorId, message, t⟩

/-- The `Bug` entity (bug_model.py lines 54-95). -/
structure Bug where
  id : Option String
  title : String
  description : String
  projectId : String
  reportedBy : String
  assignedTo : Option String
  status : BugStatus
  priority : BugPriority
  severity : BugSeverity
  tags : List String
  validated : Bool
  createdAt : Nat
  updatedAt : Nat
deriving DecidableEq, Repr

/-- The `status` field: defaults to Open, validated by `validate_status`. -/
def pyStatusFieldD : Option JValue → Except PyErr BugStatus
  | none => .ok .Open
  | some (.str s) => parseBugStatus s
  | some _ => .error (.valueError "Input should be a valid status")

/-- The required `priority` field, validated by `validate_priority`. -/
def pyPriorityField : Option JValue → Except PyErr BugPriority
  | some (.str s) => parseBugPriority s
  | none => .error (.valueError "Field required")
  | some _ => .error (.valueError "Input should be a valid priority")

/-- The required `severity` field, validated by `validate_severity`. -/
def pySeverityField : Option JValue → Except PyErr BugSeverity
  | some (.str s) => parseBugSeverity s
  | none => .error (.valueError "Field required")
  | some _ => .error (.valueError "Input should be a valid severity")

/-- `Bug(**item)`: pydantic construction with the enum field validators;
`status` defaults to Open, `tags` to `[]`, `validated` to False, and the two
timestamps to the current time `now`. -/
def mkBug (now : Nat) (item : Item) : Except PyErr Bug :=
  Except.bind (pyOptStrField (jlookup item "_id")) fun idv =>
  Except.bind (pyStrMin1Max200 (jlookup item "title")) fun title =>
  Except.bind (pyStrMin1 (jlookup item "description")) fun description =>
  Except.bind (pyStrMin1 (jlookup item "projectId")) fun projectId =>
  Except.bind (pyStrMin1 (jlookup item "reportedBy")) fun reportedBy =>
  Except.bind (pyOptStrField (jlookup item "assignedTo")) fun assignedTo =>
  Except.bind (pyStatusFieldD (jlookup item "status")) fun status =>
  Except.bind (pyPriorityField (jlookup item "priority")) fun priority =>
  Except.bind (pySeverityField (jlookup item "severity")) fun severity =>
  Except.bind (pyStrListFieldD (jlookup item "tags")) fun tags =>
  Except.bind (pyBoolFieldD false (jlookup item "validated")) fun validated =>
  Except.bind (pyDatetimeFieldD now (jlookup item "createdAt")) fun createdAt =>
  Except.bind (pyDatetimeFieldD now (jlookup item "updatedAt")) fun updatedAt =>
  Except.ok ⟨idv, title, description, projectId, reportedBy, assignedTo,
    status, priority, severity, tags, validated, createdAt, updatedAt⟩

/-- The `Project` entity (bug_model.py lines 124-139). -/
structure Project where
  id : Option String
  name : String
  description : String
  createdBy : String
  createdAt : Nat
deriving DecidableEq, Repr

/-- `Project(_id=..., name=..., description=..., createdBy=..., createdAt=...)`
as called by the project decoder: pydantic validation of the keyword values. -/
def mkProject (idv : Option JValue) (name description createdBy : JValue)
    (createdAt : Nat) : Except PyErr Project :=
  Except.bind (pyOptStrField idv) fun id0 =>
  Except.bind (pyStrMin1Max200 (some name)) fun n =>
  Except.bind (pyStrMin1 (some description)) fun d =>
  Except.bind (pyStrMin1 (some createdBy)) fun cb =>
  Except.ok ⟨id0, n, d, cb, createdAt⟩

/-- The `ActivityLog` entity (bug_model.py lines 142-157). -/
structure ActivityLog where
  id : Option String
  bugId : String
  action : String
  performedBy : String
  timestamp : Nat
deriving DecidableEq, Repr

/-- `ActivityLog(**item)`: pydantic construction; `timestamp` defaults to the
current time `now`. -/
def mkActivityLog (now : Nat) (item : Item) : Except PyErr ActivityLog :=
  match pyOptStrField (jlookup item "_id") with
  | .error e => .error e
  | .ok idv =>
    match pyStrMin1 (jlookup item "bugId") with
    | .error e => .error e
    | .ok bugId =>
      match pyStrMin1 (jlookup item "action") with
      | .error e => .error e
      | .ok action =>
        match pyStrMin1 (jlookup item "performedBy") with
        | .error e => .error e
        | .ok performedBy =>
          match pyDatetimeFieldD now (jlookup item "timestamp") with
          | .error e => .error e
          | .ok timestamp => .ok ⟨idv, bugId, action, performedBy, timestamp⟩

/-! ## Entity codecs and query emulation (`backend/repositories/*.py`)

Each repository multiplexes its entity kind into the shared base collection
with a `type` discriminator and decodes stored items back into entities.
Listing operations take the raw scan result (the item list `get_all_items`
produced) and the current time `now` (each decode calls the entity
constructor, whose defaults and validator read the clock). -/

/-- `mapExcept f l`: the list comprehension `[f(x) for x in l]` where `f` may
raise — the first raise aborts the whole comprehension. -/
def mapExcept (f : α → Except PyErr β) : List α → Except PyErr (List β)
  | [] => .ok []
  | x :: xs =>
      match f x with
      | .error e => .error e
      | .ok y =>
          match mapExcept f xs with
          | .error e => .error e
          | .ok ys => .ok (y :: ys)

/-- `item.get("type") == entity_type` for a python string `entity_type`. -/
def hasEntityType (it : Item) (entityType : String) : Bool :=
  match jlookup it "type" with
  | some (.str s) => s == entityType
  | _ => false

/-- `item["_id"] = item.pop("__auto_id__")` when the key is present: the
`__auto_id__` handling shared by the comment and activity-log decoders. -/
def moveAutoId (item : Item) : Item :=
  match jlookup item "__auto_id__" with
  | some v => setField (eraseField item "__auto_id__") "_id" v
  | none => item

/-- `CommentRepository._collection_item_to_comment` (comment_repository.py
lines 47-83): moves `__auto_id__` to `_id` (python pops the old key and the
assignment overwrites any existing `_id`), parses `createdAt` tolerating an
absent value, a datetime object or an ISO string, and constructs the
`Comment`. -/
def _collection_item_to_comment (now : Nat) (item : Item) :
    Except PyErr Comment :=
  match jlookup (moveAutoId item) "createdAt" with
  | none => mkComment now (moveAutoId item)
  | some (.time _) => mkComment now (moveAutoId item)
  | some (.timeStr t) =>
      mkComment now (setField (moveAutoId item) "createdAt" (.time t))
  | some (.str s) =>
      .error (.valueError ("Invalid datetime format for createdAt: " ++ s))
  | some _ =>
      .error (.valueError
        "Invalid type for createdAt: expected str, datetime, or None")

/-- `CommentRepository.get_by_bug_id` (comment_repository.py lines 126-156):
scan, keep items whose `type` is "comment", decode them, keep those of the
requested bug, and stable-sort ascending by `createdAt`. -/
def comments_get_by_bug_id (now : Nat) (items : List Item) (bug_id : String) :
    Except PyErr (List Comment) :=
  match mapExcept (_collection_item_to_comment now)
      (items.filter (fun it => hasEntityType it "comment")) with
  | .error e => .error e
  | .ok comments =>
      .ok ((comments.filter (fun c => c.bugId == bug_id)).mergeSort
        (fun a b => decide (a.createdAt ≤ b.createdAt)))

/-- `ActivityLogRepository._collection_item_to_activity_log`
(activity_log_repository.py lines 47-64): moves `__auto_id__` to `_id` and
parses `timestamp` only when it is a string (an unparsable string raises the
`fromisoformat` `ValueError` directly). -/
def _collection_item_to_activity_log (now : Nat) (item : Item) :
    Except PyErr ActivityLog :=
  match jlookup (moveAutoId item) "timestamp" with
  | some (.timeStr t) =>
      mkActivityLog now (setField (moveAutoId item) "timestamp" (.time t))
  | some (.str s) => .error (.valueError ("Invalid isoformat string: " ++ s))
  | _ => mkActivityLog now (moveAutoId item)

/-- `ActivityLogRepository.get_by_bug_id` (activity_log_repository.py lines
89-119): scan, keep items whose `type` is "activity_log", decode them, keep
those of the requested bug, and stable-sort descending by `timestamp`
(python's `sort(key=..., reverse=True)` keeps the original order of equal
keys). -/
def activity_logs_get_by_bug_id (now : Nat) (items : List Item)
    (bug_id : String) : Except PyErr (List ActivityLog) :=
  match mapExcept (_collection_item_to_activity_log now)
      (items.filter (fun it => hasEntityType it "activity_log")) with
  | .error e => .error e
  | .ok logs =>
      .ok ((logs.filter (fun l => l.bugId == bug_id)).mergeSort
        (fun a b => decide (b.timestamp ≤ a.timestamp)))

/-- `None`-tolerant string encoding used for `assignedTo`. -/
def optStrJ : Option String → JValue
  | some s => .str s
  | none => .null

/-- `BugRepository._bug_to_collection_item` (bug_repository.py lines 30-53):
the native-field encoding of a bug, timestamps in ISO format, enums by their
`.value`, plus the `type` discriminator. -/
def _bug_to_collection_item (bug : Bug) : Item :=
  [("type", .str "bug"),
   ("title", .str bug.title),
   ("description", .str bug.description),
   ("status", .str bug.status.value),
   ("priority", .str bug.priority.value),
   ("severity", .str bug.severity.value),
   ("projectId", .str bug.projectId),
   ("reportedBy", .str bug.reportedBy),
   ("assignedTo", optStrJ bug.assignedTo),
   ("tags", .list (bug.tags.map JValue.str)),
   ("validated", .bool bug.validated),
   ("createdAt", .timeStr bug.createdAt),
   ("updatedAt", .timeStr bug.updatedAt)]

/-- `if "__auto_id__" in item and "_id" not in item: item["_id"] = ...` of
the bug decoder (which, unlike the comment decoder, does not pop the old
key), split on the two lookups. -/
def bug_item_with_id_val (item : Item) : Option JValue → Option JValue → Item
  | some v, none => setField item "_id" v
  | _, _ => item

def bug_item_with_id (item : Item) : Item :=
  bug_item_with_id_val item (jlookup item "__auto_id__") (jlookup item "_id")

/-- The timestamp-field preprocessing of the bug decoder: leave an absent or
already-datetime value, replace a parsable ISO string by its datetime, raise
the `fromisoformat` `ValueError` for an unparsable string, and raise the
explicit type error for anything else. -/
def bug_parse_dt_value (item : Item) (key : String) :
    Option JValue → Except PyErr Item
  | none => .ok item
  | some (.time _) => .ok item
  | some (.timeStr t) => .ok (setField item key (.time t))
  | some (.str s) =>
      .error (.valueError ("Invalid isoformat string: " ++ s))
  | some _ =>
      .error (.valueError ("Invalid type for " ++ key ++
        ": expected str, datetime, or None"))

/-- `BugRepository._collection_item_to_bug` (bug_repository.py lines 55-99):
copies `__auto_id__` into `_id` only when `_id` is absent (without popping),
parses both timestamps tolerating absent values, datetime objects and ISO
strings, and constructs the `Bug`. -/
def _collection_item_to_bug (now : Nat) (item : Item) : Except PyErr Bug :=
  Except.bind (bug_parse_dt_value (bug_item_with_id item) "createdAt"
      (jlookup (bug_item_with_id item) "createdAt")) fun item2 =>
  Except.bind (bug_parse_dt_value item2 "updatedAt"
      (jlookup item2 "updatedAt")) fun item3 =>
  mkBug now item3

/-- Python truthiness of a wire value (`not value`). -/
def JValue.truthy : JValue → Bool
  | .null => false
  | .bool b => b
  | .str s => !(s == "")
  | .timeStr _ => true
  | .jsonStr _ => true
  | .time _ => true
  | .list xs => !xs.isEmpty
  | .obj fs => !fs.isEmpty

/-- Truthiness of `d.get(k)` (`None` when the key is absent). -/
def truthyOpt : Option JValue → Bool
  | none => false
  | some v => v.truthy

/-- `ProjectRepository._project_to_collection_item` (project_repository.py
lines 31-52): the overflow-payload encoding — the discriminator, the real
description and the creator are serialized as JSON placed in the item's
`description` text field; only `name` and `created_at` are native fields. -/
def _project_to_collection_item (p : Project) : Item :=
  [("name", .str p.name),
   ("description", .jsonStr
      [("type", .str "project"),
       ("description", .str p.description),
       ("createdBy", .str p.createdBy)]),
   ("created_at", .timeStr p.createdAt)]

/-- The `json.loads` of the project item's `description` field: an absent
field defaults to the empty JSON object text, a string parses to the object
it holds or raises `ValueError` when it is not valid JSON, and a non-string
value is treated as an empty payload. -/
def project_payload : Option JValue → Except PyErr Item
  | none => .ok []
  | some (.jsonStr fs) => .ok fs
  | some (.str _) =>
      .error (.valueError
        "Invalid project data: description field contains malformed JSON")
  | some (.timeStr _) =>
      .error (.valueError
        "Invalid project data: description field contains malformed JSON")
  | some _ => .ok []

/-- The `created_at` parsing of the project decoder: every problem (absent
field, unparsable string, unexpected type) falls back to the current time. -/
def project_created_at (now : Nat) : Option JValue → Nat
  | none => now
  | some (.time t) => t
  | some (.timeStr t) => t
  | some (.str _) => now
  | some _ => now

/-- `ProjectRepository._collection_item_to_project` (project_repository.py
lines 54-127): parses the JSON payload out of the `description` field (an
absent field defaults to the empty JSON object, a non-string field is treated
as an empty payload, an unparsable string raises `ValueError`), requires a
truthy `description` and `createdBy` inside the payload, parses `created_at`
with a fallback to the current time `now` on any problem, and constructs the
`Project` with `_id` taken from `__auto_id__`. -/
def _collection_item_to_project (now : Nat) (item : Item) :
    Except PyErr Project :=
  Except.bind (project_payload (jlookup item "description")) fun data =>
  if truthyOpt (jlookup data "description") = false then
    .error (.valueError
      "Invalid project data: missing required field 'description' in description JSON")
  else if truthyOpt (jlookup data "createdBy") = false then
    .error (.valueError
      "Invalid project data: missing required field 'createdBy' in description JSON")
  else
    mkProject (jlookup item "__auto_id__") ((jlookup item "name").getD (.str ""))
      ((jlookup data "description").getD .null)
      ((jlookup data "createdBy").getD .null)
      (project_created_at now (jlookup item "created_at"))

/-! ## Comment-creation saga (`backend/routes/comments.py`, `create_comment`)

Lines 70-98 of `create_comment` form the compensating-action protocol: after
the primary write (persisting the comment) succeeds, the secondary write
(touching the parent bug's `updatedAt` with the same `now`) is attempted; on
its failure the code tries to roll the primary write back and raises a fixed
HTTP 500 error.  The store is the pair of the persisted comments and the
parent bug's `updatedAt` field. -/

/-- The persisted state the saga manipulates: the stored comments (id paired
with the stored item) and the parent bug's `updatedAt` value. -/
structure TrackerState where
  comments : List (String × Item)
  bugUpdatedAt : Nat
deriving Repr

/-- `CommentRepository` (comment_repository.py) defines exactly `create`,
`get_by_id` and `get_by_bug_id` — and no `delete` method. -/
def comment_repository_has_delete : Bool := false

/-- The rollback call `await services.comment_repository.delete(comment_id)`:
were the method present it would remove the stored comment, but since
`CommentRepository` has no `delete`, the lookup raises `AttributeError` and
nothing is removed. -/
def comment_repository_delete (st : TrackerState) (comment_id : String) :
    Except PyErr TrackerState :=
  if comment_repository_has_delete then
    .ok { st with comments := st.comments.filter (fun p => p.1 != comment_id) }
  else
    .error (.attrError "CommentRepository object has no attribute delete")

/-- Lines 70-98 of `create_comment`, entered with the primary write already
performed: the new comment is persisted under fresh id `new_id`; then the
secondary write `bug_repository.update_fields(bugId, updatedAt=now)` has
outcome `secondary`; on its failure the compensating delete is attempted
(its own failure is caught and only logged) and the fixed 500 error is
raised.  Returns the HTTP outcome paired with the final store state. -/
def create_comment_saga (st : TrackerState) (new_id : String) (citem : Item)
    (now : Nat) (secondary : Except PyErr Unit) :
    Except HTTPException Item × TrackerState :=
  let st1 : TrackerState :=
    { st with comments := st.comments ++ [(new_id, citem)] }
  match secondary with
  | .ok _ => (.ok citem, { st1 with bugUpdatedAt := now })
  | .error _ =>
      match comment_repository_delete st1 new_id with
      | .ok st2 =>
          (.error ⟨500, "Failed to create comment: bug timestamp update failed"⟩,
            st2)
      | .error _ =>
          (.error ⟨500, "Failed to create comment: bug timestamp update failed"⟩,
            st1)

/-! ## Theorems for claims C1 and C4 (the saga) -/

/-- C1 (code-bug evaluation): whenever the secondary write
(`bug_repository.update_fields`) raises after the primary write persisted the
comment, the compensating delete raises `AttributeError` because
`CommentRepository` defines no `delete` method; the operation reports the
fixed 500 failure while the created comment stays persisted and the parent
bug's `updatedAt` is untouched — orphaned partial state remains, contrary to
the claim and to the code's own rollback comments and log messages. -/
theorem C1_rollback_leaves_partial_state :
    ∀ (st : TrackerState) (new_id : String) (citem : Item) (now : Nat)
      (e : PyErr),
      (create_comment_saga st new_id citem now (.error e)).1 =
        .error ⟨500, "Failed to create comment: bug timestamp update failed"⟩ ∧
      (create_comment_saga st new_id citem now (.error e)).2.comments =
        st.comments ++ [(new_id, citem)] ∧
      (create_comment_saga st new_id citem now (.error e)).2.bugUpdatedAt =
        st.bugUpdatedAt :=
  fun _ _ _ _ _ => ⟨rfl, rfl, rfl⟩

/-- C4 (counterexample): in the double-failure scenario the surfaced outcome
is byte-identical for two different orphaned comment ids, so it cannot carry
an identifier locating the orphan, and it is the very same generic
`HTTPException` the rollback-success path would raise — no distinct
`ConsistencyFatalError`-class outcome exists. -/
theorem C4_counterexample :
    (create_comment_saga ⟨[], 0⟩ "orphan-AAA" [("type", .str "comment")] 7
        (.error .requestError)).1 =
      .error ⟨500, "Failed to create comment: bug timestamp update failed"⟩ ∧
    (create_comment_saga ⟨[], 0⟩ "orphan-AAA" [("type", .str "comment")] 7
        (.error .requestError)).1 =
      (create_comment_saga ⟨[], 0⟩ "orphan-BBB" [("type", .str "comment")] 7
        (.error .requestError)).1 :=
  ⟨rfl, rfl⟩

/-- C4 (amended): the compensating delete always fails (`CommentRepository`
has no `delete` attribute), and the operation then raises the same fixed
generic `HTTPException` 500 regardless of the failing scenario — the orphaned
record's collection and id are not carried by the surfaced outcome (they
appear only in a critical log), and no `ConsistencyFatalError` class exists
in the code. -/
theorem C4_fatal_path_not_distinct :
    (∀ (st : TrackerState) (cid : String),
        comment_repository_delete st cid =
          .error (.attrError "CommentRepository object has no attribute delete")) ∧
    (∀ (st st2 : TrackerState) (id1 id2 : String) (it1 it2 : Item)
        (now1 now2 : Nat) (e1 e2 : PyErr),
        (create_comment_saga st id1 it1 now1 (.error e1)).1 =
          (create_comment_saga st2 id2 it2 now2 (.error e2)).1) :=
  ⟨fun _ _ => rfl, fun _ _ _ _ _ _ _ _ _ _ => rfl⟩

/-! ## Theorems for claim C10 (comment `createdAt` invariant) -/

theorem mkComment_ok_createdAt_le {now : Nat} {item : Item} {c : Comment}
    (h : mkComment now item = .ok c) : c.createdAt ≤ now := by
  unfold mkComment at h
  repeat' split at h
  all_goals first
    | (injection h with h1; subst h1; exact Nat.le_refl _)
    | (rename_i hcond; injection h with h1; subst h1;
       exact Nat.not_lt.mp hcond)
    | injection h

theorem mkComment_ok_createdAt_eq {now t : Nat} {item : Item} {c : Comment}
    (h : mkComment now item = .ok c)
    (hl : jlookup item "createdAt" = some (.time t)) : c.createdAt = t := by
  unfold mkComment at h
  rw [hl] at h
  dsimp only [pyDatetimeVal] at h
  repeat' split at h
  all_goals first
    | (injection h with h1; subst h1; rfl)
    | injection h

theorem decode_comment_createdAt_le {now : Nat} {item : Item} {c : Comment}
    (h : _collection_item_to_comment now item = .ok c) : c.createdAt ≤ now := by
  unfold _collection_item_to_comment at h
  repeat' split at h
  all_goals first
    | exact mkComment_ok_createdAt_le h
    | injection h

theorem mapExcept_mem {α β : Type} {f : α → Except PyErr β} {l : List α}
    {ys : List β} (h : mapExcept f l = .ok ys) :
    ∀ y ∈ ys, ∃ x ∈ l, f x = .ok y := by
  induction l generalizing ys with
  | nil =>
      injection h with h1
      subst h1
      intro y hy
      cases hy
  | cons a l ih =>
      unfold mapExcept at h
      split at h
      · injection h
      · rename_i y0 hy0
        split at h
        · injection h
        · rename_i ys0 hys0
          injection h with h1
          subst h1
          intro y hy
          rcases List.mem_cons.mp hy with hy1 | hy2
          · exact ⟨a, List.mem_cons_self _ _, hy1 ▸ hy0⟩
          · obtain ⟨x, hx, hfx⟩ := ih hys0 y hy2
            exact ⟨x, List.mem_cons_of_mem a hx, hfx⟩

theorem mapExcept_total {α β : Type} {f : α → Except PyErr β} {l : List α}
    (h : ∀ x ∈ l, ∃ y, f x = .ok y) :
    ∃ ys, mapExcept f l = .ok ys := by
  induction l with
  | nil => exact ⟨[], rfl⟩
  | cons a l ih =>
      obtain ⟨y, hy⟩ := h a (List.mem_cons_self _ _)
      obtain ⟨ys, hys⟩ := ih (fun x hx => h x (List.mem_cons_of_mem a hx))
      refine ⟨y :: ys, ?_⟩
      unfold mapExcept
      rw [hy, hys]

/-- C10: a comment construction only succeeds with `createdAt` at or before
the current time; the decoder inherits the invariant; an explicit future
`createdAt` makes construction fail; and every comment returned by the
listing satisfies the invariant. -/
theorem C10_comment_createdAt_invariant :
    (∀ (now : Nat) (item : Item) (c : Comment),
        mkComment now item = .ok c → c.createdAt ≤ now) ∧
    (∀ (now : Nat) (item : Item) (c : Comment),
        _collection_item_to_comment now item = .ok c → c.createdAt ≤ now) ∧
    (∀ (now t : Nat) (item : Item), now < t →
        jlookup item "createdAt" = some (.time t) →
        ∀ c, mkComment now item ≠ .ok c) ∧
    (∀ (now : Nat) (items : List Item) (bug_id : String) (cs : List Comment),
        comments_get_by_bug_id now items bug_id = .ok cs →
        ∀ c ∈ cs, c.createdAt ≤ now) := by
  refine ⟨fun _ _ _ h => mkComment_ok_createdAt_le h,
    fun _ _ _ h => decode_comment_createdAt_le h, ?_, ?_⟩
  · intro now t item hlt hl c h
    have h1 := mkComment_ok_createdAt_le h
    have h2 := mkComment_ok_createdAt_eq h hl
    omega
  · intro now items bug_id cs h c hc
    unfold comments_get_by_bug_id at h
    split at h
    · injection h
    · rename_i comments heq
      injection h with h1
      subst h1
      have hmem : c ∈ comments.filter (fun c => c.bugId == bug_id) :=
        (List.mergeSort_perm _ _).mem_iff.mp hc
      have hc2 : c ∈ comments := List.mem_of_mem_filter hmem
      obtain ⟨it, _, hdec⟩ := mapExcept_mem heq c hc2
      exact decode_comment_createdAt_le hdec

/-- C10 (witness): a concrete stored item whose `createdAt` is the ISO text
of instant 50 decodes at time 100 to a comment with `createdAt = 50 ≤ 100`;
instantiating the listing clause on a one-item scan. -/
theorem C10_comment_createdAt_invariant_witness :
    (Comment.mk (some "c1") "b1" "u1" "hi" 50).createdAt ≤ 100 :=
  C10_comment_createdAt_invariant.2.1 100
    [("__auto_id__", .str "c1"), ("type", .str "comment"),
     ("bugId", .str "b1"), ("authorId", .str "u1"),
     ("message", .str "hi"), ("createdAt", .timeStr 50)]
    (Comment.mk (some "c1") "b1" "u1" "hi" 50) rfl

/-! ## Theorems for claim C8 (listing: discriminator filter and sort order) -/

/-- C8: on any scan in which every item tagged with the repository's
discriminator decodes, the listing succeeds (items lacking or mismatching the
tag are never decoded, so they are excluded rather than erroring), and the
result is a permutation of the decodes of exactly the tag-matching
(bug-filtered) items — in ascending `createdAt` order for comments and
descending `timestamp` order for activity logs. -/
theorem C8_listing_filter_and_order :
    (∀ (now : Nat) (items : List Item) (bug_id : String),
        (∀ it ∈ items, hasEntityType it "comment" = true →
            ∃ c, _collection_item_to_comment now it = .ok c) →
        ∃ decoded cs,
          mapExcept (_collection_item_to_comment now)
              (items.filter (fun it => hasEntityType it "comment")) =
            .ok decoded ∧
          comments_get_by_bug_id now items bug_id = .ok cs ∧
          cs.Perm (decoded.filter (fun c => c.bugId == bug_id)) ∧
          List.Pairwise (fun a b => a.createdAt ≤ b.createdAt) cs) ∧
    (∀ (now : Nat) (items : List Item) (bug_id : String),
        (∀ it ∈ items, hasEntityType it "activity_log" = true →
            ∃ l, _collection_item_to_activity_log now it = .ok l) →
        ∃ decoded ls,
          mapExcept (_collection_item_to_activity_log now)
              (items.filter (fun it => hasEntityType it "activity_log")) =
            .ok decoded ∧
          activity_logs_get_by_bug_id now items bug_id = .ok ls ∧
          ls.Perm (decoded.filter (fun l => l.bugId == bug_id)) ∧
          List.Pairwise (fun a b => b.timestamp ≤ a.timestamp) ls) := by
  constructor
  · intro now items bug_id hdec
    obtain ⟨decoded, hmap⟩ := mapExcept_total
      (fun it hit => hdec it (List.mem_filter.mp hit).1 (List.mem_filter.mp hit).2)
    refine ⟨decoded,
      (decoded.filter (fun c => c.bugId == bug_id)).mergeSort
        (fun a b => decide (a.createdAt ≤ b.createdAt)),
      hmap, ?_, List.mergeSort_perm _ _, ?_⟩
    · unfold comments_get_by_bug_id
      rw [hmap]
    · have hs := @List.sorted_mergeSort Comment
        (fun a b => decide (a.createdAt ≤ b.createdAt))
        (fun a b c hab hbc =>
          decide_eq_true (Nat.le_trans (of_decide_eq_true hab) (of_decide_eq_true hbc)))
        (fun a b => by
          rcases Nat.le_total a.createdAt b.createdAt with h | h <;> simp [h])
        (decoded.filter (fun c => c.bugId == bug_id))
      exact hs.imp (fun hab => of_decide_eq_true hab)
  · intro now items bug_id hdec
    obtain ⟨decoded, hmap⟩ := mapExcept_total
      (fun it hit => hdec it (List.mem_filter.mp hit).1 (List.mem_filter.mp hit).2)
    refine ⟨decoded,
      (decoded.filter (fun l => l.bugId == bug_id)).mergeSort
        (fun a b => decide (b.timestamp ≤ a.timestamp)),
      hmap, ?_, List.mergeSort_perm _ _, ?_⟩
    · unfold activity_logs_get_by_bug_id
      rw [hmap]
    · have hs := @List.sorted_mergeSort ActivityLog
        (fun a b => decide (b.timestamp ≤ a.timestamp))
        (fun a b c hab hbc =>
          decide_eq_true (Nat.le_trans (of_decide_eq_true hbc) (of_decide_eq_true hab)))
        (fun a b => by
          rcases Nat.le_total a.timestamp b.timestamp with h | h <;> simp [h])
        (decoded.filter (fun l => l.bugId == bug_id))
      exact hs.imp (fun hab => of_decide_eq_true hab)

/-- A concrete scan holding items of three discriminators (plus one with no
tag at all) with out-of-order timestamps, for the C8 witness. -/
def c8ScanItems : List Item :=
  [[("type", .str "bug"), ("title", .str "t")],
   [("__auto_id__", .str "c1"), ("type", .str "comment"), ("bugId", .str "b1"),
    ("authorId", .str "u1"), ("message", .str "m1"), ("createdAt", .timeStr 60)],
   [("__auto_id__", .str "l1"), ("type", .str "activity_log"),
    ("bugId", .str "b1"), ("action", .str "status_changed"),
    ("performedBy", .str "u1"), ("timestamp", .timeStr 10)],
   [("__auto_id__", .str "c2"), ("type", .str "comment"), ("bugId", .str "b1"),
    ("authorId", .str "u2"), ("message", .str "m2"), ("createdAt", .timeStr 40)],
   [("__auto_id__", .str "l2"), ("type", .str "activity_log"),
    ("bugId", .str "b1"), ("action", .str "bug_validated"),
    ("performedBy", .str "u2"), ("timestamp", .timeStr 90)],
   [("name", .str "x")]]

/-- C8 (witness): the theorem instantiated on the concrete mixed scan. -/
theorem C8_listing_filter_and_order_witness :
    (∃ decoded cs,
        mapExcept (_collection_item_to_comment 100)
            (c8ScanItems.filter (fun it => hasEntityType it "comment")) =
          .ok decoded ∧
        comments_get_by_bug_id 100 c8ScanItems "b1" = .ok cs ∧
        cs.Perm (decoded.filter (fun c => c.bugId == "b1")) ∧
        List.Pairwise (fun a b => a.createdAt ≤ b.createdAt) cs) ∧
    (∃ decoded ls,
        mapExcept (_collection_item_to_activity_log 100)
            (c8ScanItems.filter (fun it => hasEntityType it "activity_log")) =
          .ok decoded ∧
        activity_logs_get_by_bug_id 100 c8ScanItems "b1" = .ok ls ∧
        ls.Perm (decoded.filter (fun l => l.bugId == "b1")) ∧
        List.Pairwise (fun a b => b.timestamp ≤ a.timestamp) ls) :=
  ⟨C8_listing_filter_and_order.1 100 c8ScanItems "b1"
      (by
        intro it hit htag
        fin_cases hit <;>
          first
            | exact ⟨_, rfl⟩
            | exact Bool.noConfusion htag),
    C8_listing_filter_and_order.2 100 c8ScanItems "b1"
      (by
        intro it hit htag
        fin_cases hit <;>
          first
            | exact ⟨_, rfl⟩
            | exact Bool.noConfusion htag)⟩

/-! ## Theorems for claim C9 (codec round trips) -/

theorem parseBugStatus_value (s : BugStatus) : parseBugStatus s.value = .ok s := by
  cases s <;> rfl

theorem parseBugPriority_value (s : BugPriority) :
    parseBugPriority s.value = .ok s := by
  cases s <;> rfl

theorem parseBugSeverity_value (s : BugSeverity) :
    parseBugSeverity s.value = .ok s := by
  cases s <;> rfl

theorem pyStrElems_map_str (l : List String) :
    pyStrElems (l.map JValue.str) = .ok l := by
  induction l with
  | nil => rfl
  | cons a l ih => simp [pyStrElems, ih]

theorem pyOptStrField_optStrJ (o : Option String) :
    pyOptStrField (some (optStrJ o)) = .ok o := by
  cases o <;> rfl

theorem pyStrMin1_str {s : String} (h : 1 ≤ s.length) :
    pyStrMin1 (some (.str s)) = .ok s := by
  simp only [pyStrMin1, pyStrField]
  rw [if_neg (by omega)]

theorem pyStrMin1Max200_str {s : String} (h1 : 1 ≤ s.length)
    (h2 : s.length ≤ 200) :
    pyStrMin1Max200 (some (.str s)) = .ok s := by
  simp only [pyStrMin1Max200, pyStrField]
  rw [if_neg (by omega), if_neg (by omega)]

theorem except_bind_ok {α β : Type} (a : α) (f : α → Except PyErr β) :
    Except.bind (Except.ok a) f = f a := rfl

theorem except_bind_error {α β : Type} (e : PyErr) (f : α → Except PyErr β) :
    Except.bind (Except.error e : Except PyErr α) f = Except.error e := rfl

theorem pyStatusFieldD_value (s : BugStatus) :
    pyStatusFieldD (some (.str s.value)) = .ok s := by
  cases s <;> rfl

theorem pyPriorityField_value (s : BugPriority) :
    pyPriorityField (some (.str s.value)) = .ok s := by
  cases s <;> rfl

theorem pySeverityField_value (s : BugSeverity) :
    pySeverityField (some (.str s.value)) = .ok s := by
  cases s <;> rfl

/-- C9: for a bug or project not yet persisted (no id — the store assigns
identity on create) and satisfying the model's validation bounds, decoding
the encoding reproduces every attribute exactly — for the bug's native-field
encoding and for the project's overflow-payload-in-description encoding. -/
theorem C9_codec_round_trip :
    (∀ (now : Nat) (bug : Bug), bug.id = none →
        1 ≤ bug.title.length → bug.title.length ≤ 200 →
        1 ≤ bug.description.length → 1 ≤ bug.projectId.length →
        1 ≤ bug.reportedBy.length →
        _collection_item_to_bug now (_bug_to_collection_item bug) = .ok bug) ∧
    (∀ (now : Nat) (p : Project), p.id = none →
        1 ≤ p.name.length → p.name.length ≤ 200 →
        1 ≤ p.description.length → 1 ≤ p.createdBy.length →
        _collection_item_to_project now (_project_to_collection_item p) =
          .ok p) := by
  constructor
  · intro now bug hid h1 h2 h3 h4 h5
    obtain ⟨id, title, description, projectId, reportedBy, assignedTo, status,
      priority, severity, tags, validated, createdAt, updatedAt⟩ := bug
    simp only [Bug.id] at hid
    subst hid
    simp only [Bug.title] at h1 h2
    simp only [Bug.description] at h3
    simp only [Bug.projectId] at h4
    simp only [Bug.reportedBy] at h5
    cases assignedTo <;>
      simp [_collection_item_to_bug, _bug_to_collection_item,
        bug_item_with_id, bug_item_with_id_val, bug_parse_dt_value, jlookup,
        setField, mkBug, except_bind_ok, except_bind_error, pyDatetimeFieldD,
        pyDatetimeVal, pyBoolFieldD, pyStrListFieldD, pyOptStrField, optStrJ,
        pyStrElems_map_str, pyStatusFieldD_value, pyPriorityField_value,
        pySeverityField_value, pyStrMin1_str h3, pyStrMin1_str h4,
        pyStrMin1_str h5, pyStrMin1Max200_str h1 h2]
  · intro now p hid h1 h2 h3 h4
    obtain ⟨id, name, description, createdBy, createdAt⟩ := p
    simp only [Project.id] at hid
    subst hid
    simp only [Project.name] at h1 h2
    simp only [Project.description] at h3
    simp only [Project.createdBy] at h4
    have hd : (description == "") = false := by
      simp only [beq_eq_false_iff_ne, ne_eq]
      intro he
      rw [he] at h3
      simp at h3
    have hc : (createdBy == "") = false := by
      simp only [beq_eq_false_iff_ne, ne_eq]
      intro he
      rw [he] at h4
      simp at h4
    simp [_collection_item_to_project, _project_to_collection_item,
      project_payload, project_created_at, jlookup, truthyOpt, JValue.truthy,
      except_bind_ok, except_bind_error, mkProject, pyOptStrField, Option.getD,
      hd, hc, pyStrMin1_str h3, pyStrMin1_str h4, pyStrMin1Max200_str h1 h2]

/-- C9 (witness): round trip at a concrete bug (with an assignee and tags)
and a concrete project. -/
theorem C9_codec_round_trip_witness :
    _collection_item_to_bug 100 (_bug_to_collection_item
        (Bug.mk none "Crash" "It crashes" "p1" "u1" (some "u2") .InProgress
          .High .Major ["ui", "urgent"] true 10 20)) =
      .ok (Bug.mk none "Crash" "It crashes" "p1" "u1" (some "u2") .InProgress
        .High .Major ["ui", "urgent"] true 10 20) ∧
    _collection_item_to_project 100 (_project_to_collection_item
        (Project.mk none "Tracker" "A tracker" "u1" 30)) =
      .ok (Project.mk none "Tracker" "A tracker" "u1" 30) :=
  ⟨C9_codec_round_trip.1 100
      (Bug.mk none "Crash" "It crashes" "p1" "u1" (some "u2") .InProgress
        .High .Major ["ui", "urgent"] true 10 20)
      rfl (by decide) (by decide) (by decide) (by decide) (by decide),
    C9_codec_round_trip.2 100 (Project.mk none "Tracker" "A tracker" "u1" 30)
      rfl (by decide) (by decide) (by decide) (by decide)⟩

end BugTracker
